import Mathlib

/-
Shallow embedding of the expression-evaluation engine of src/Expr.cc
(expression node model, numeric folding, vector broadcast evaluation,
record coercion, short-circuit boolean evaluation).

Conventions used throughout:
* `Expr::RuntimeError` calls `reporter->ExprRuntimeError`, which records a
  diagnostic and throws `InterpreterException`; we model a thrown interpreter
  exception as the outcome `Fail.rterror msg`.  At the statement level the
  offending expression then produces no value, which is what the spec calls
  "returns null and records a diagnostic".
* Dereferencing a null pointer, a failed internal cast (`AsVectorType` on a
  non-vector type) or a failed `assert` is modelled as `Fail.crash msg`
  (spec tier 3: internal invariant violation, terminates the process).
* A C++ function returning a `Val*` that may be `nullptr` is modelled as
  returning `Option Val`; the null pointer is `none`.
* `bro_int_t` is modelled as `Int`, `bro_uint_t` as `Nat` and `double` as
  `Rat` (the only double operation the modelled code performs is exact
  arithmetic and comparison with zero).
-/

namespace Zeek

/-- Static type tags (the subset of `TypeTag` the modelled code touches). -/
inductive TypeTag where
  | tbool
  | tint
  | tcount
  | tdouble
  | tvector (yield : TypeTag)
deriving DecidableEq, Repr

/-- Runtime values (`Val`): scalars, vectors with possibly-undefined cells
(`VectorVal`, a cell holding `none` is Zeek's "no stored value"), and list
values (`ListVal`, used as index operands). -/
inductive Val where
  | vbool (b : Bool)
  | vint (i : Int)
  | vcount (n : Nat)
  | vdouble (q : Rat)
  | vvec (yield : TypeTag) (elems : List (Option Val))
  | vlist (vals : List Val)

/-- Failure modes of evaluation: a thrown interpreter exception
(`RuntimeError`, tier 2) or an internal abort / undefined behavior
(null dereference, bad cast, failed assert; tier 3). -/
inductive Fail where
  | rterror (msg : String)
  | crash (msg : String)

/-- Val::IsZero, decided by the internal representation. -/
def Val.isZero : Val → Bool
  | .vbool b => !b
  | .vint i => i == 0
  | .vcount n => n == 0
  | .vdouble q => q == 0
  | _ => false

/-- is_vector(Val*): the value is a VectorVal. -/
def Val.isVector : Val → Bool
  | .vvec _ _ => true
  | _ => false

/-- Val::InternalInt, defined on values whose internal representation is
TYPE_INTERNAL_INT (bool and signed int). -/
def Val.internalInt : Val → Option Int
  | .vbool b => some (if b then 1 else 0)
  | .vint i => some i
  | _ => none

/-- Val::InternalUnsigned (TYPE_INTERNAL_UNSIGNED representation). -/
def Val.internalUnsigned : Val → Option Nat
  | .vcount n => some n
  | _ => none

/-- Val::InternalDouble (TYPE_INTERNAL_DOUBLE representation). -/
def Val.internalDouble : Val → Option Rat
  | .vdouble q => some q
  | _ => none

/-- Modelled from the spec: `Val::CoerceToInt` lives in Val.cc, which is not
under src/.  Per the spec's data model a count is an unsigned integer and a
bool is a truth value; the coercion injects them exactly into the signed
domain (doubles truncate toward zero, as a C cast does). -/
def Val.coerceToInt : Val → Option Int
  | .vbool b => some (if b then 1 else 0)
  | .vint i => some i
  | .vcount n => some (n : Int)
  | .vdouble q => some (q.num.tdiv (q.den : Int))
  | _ => none

/-- Modelled from the spec: `Val::Type()->InternalType() ==
TYPE_INTERNAL_UNSIGNED` for a runtime value; only count values use the
unsigned representation. -/
def Val.internalIsUnsigned : Val → Bool
  | .vcount _ => true
  | _ => false

/-- IsVector(t) on a static type tag. -/
def TypeTag.isVector : TypeTag → Bool
  | .tvector _ => true
  | _ => false

/-- BroType::YieldType for a vector type (identity otherwise; the modelled
fold only consults it after an `IsVector` test). -/
def TypeTag.yieldType : TypeTag → TypeTag
  | .tvector y => y
  | t => t

/-! ### get_slice_index (Expr.cc lines 2650-2658), claim C8 -/

/-- get_slice_index: clamp an index whose absolute value exceeds `len` to
`len` (positive) or `0` (negative); map a remaining negative index to
`idx + len`. -/
def get_slice_index (idx len : Int) : Int :=
  if (idx.natAbs : Int) > len then (if idx > 0 then len else 0)
  else if idx < 0 then idx + len
  else idx

/-! ### BinaryExpr::Fold, arithmetic path (Expr.cc lines 558-723)

The string/pattern/set/addr/subnet folds at the top of `BinaryExpr::Fold`
dispatch on representations that the modelled value universe does not
contain, so the model starts at the numeric-register part of the function
(line 577).  Operand pairs with mismatched internal representations read a
stale union member in C++; that situation is unreachable for well-typed
folds and is modelled as a crash. -/

/-- Binary operator tags of the folds the claims exercise. -/
inductive BTag where
  | add
  | sub
  | times
  | divide
  | mod
deriving DecidableEq, Repr

/-- Result construction at the tail of `BinaryExpr::Fold` (lines 709-722):
pick the register named by the node's result type (stripped to its yield
type for vector results).  `i3`, `u3`, `d3` are the three fold registers,
of which the executed branch has set exactly one. -/
def foldResult (ty : TypeTag) (i3 : Int) (u3 : Nat) (d3 : Rat) : Val :=
  let ret := if ty.isVector then ty.yieldType else ty
  match ret with
  | .tdouble => .vdouble d3
  | .tcount => .vcount u3
  | .tbool => .vbool (i3 != 0)
  | _ => .vint i3

/-- BinaryExpr::Fold (numeric part): dispatch on the first operand's
internal representation, fold in that domain — with the division/modulo
zero-divisor runtime errors — and build the result value from the node's
type `ty` (`none` models a node whose type pointer was never set). -/
def BinaryExpr.Fold (tag : BTag) (ty : Option TypeTag) (v1 v2 : Val) :
    Except Fail Val := do
  let ty ← match ty with
    | some t => pure t
    | none => throw (.crash "null type in BinaryExpr::Fold")
  -- the (is_integral, i1, i2) / (is_unsigned, u1, u2) / (d1, d2) registers
  match v1.internalInt, v1.internalUnsigned, v1.internalDouble with
  | some i1, _, _ => do
      let i2 ← match v2.internalInt with
        | some i => pure i
        | none => throw (.crash "operand representation mismatch in BinaryExpr::Fold")
      match tag with
      | .add => pure (foldResult ty (i1 + i2) 0 0)
      | .sub => pure (foldResult ty (i1 - i2) 0 0)
      | .times => pure (foldResult ty (i1 * i2) 0 0)
      | .divide =>
          if i2 = 0 then throw (.rterror "division by zero")
          else pure (foldResult ty (i1.tdiv i2) 0 0)
      | .mod =>
          if i2 = 0 then throw (.rterror "modulo by zero")
          else pure (foldResult ty (i1.tmod i2) 0 0)
  | none, some u1, _ => do
      let u2 ← match v2.internalUnsigned with
        | some u => pure u
        | none => throw (.crash "operand representation mismatch in BinaryExpr::Fold")
      match tag with
      | .add => pure (foldResult ty 0 (u1 + u2) 0)
      | .sub => pure (foldResult ty 0 (u1 - u2) 0)
      | .times => pure (foldResult ty 0 (u1 * u2) 0)
      | .divide =>
          if u2 = 0 then throw (.rterror "division by zero")
          else pure (foldResult ty 0 (u1 / u2) 0)
      | .mod =>
          if u2 = 0 then throw (.rterror "modulo by zero")
          else pure (foldResult ty 0 (u1 % u2) 0)
  | none, none, some d1 => do
      let d2 ← match v2.internalDouble with
        | some d => pure d
        | none => throw (.crash "operand representation mismatch in BinaryExpr::Fold")
      match tag with
      | .add => pure (foldResult ty 0 0 (d1 + d2))
      | .sub => pure (foldResult ty 0 0 (d1 - d2))
      | .times => pure (foldResult ty 0 0 (d1 * d2))
      | .divide =>
          if d2 = 0 then throw (.rterror "division by zero")
          else pure (foldResult ty 0 0 (d1 / d2))
      | .mod => throw (.rterror "bad type in BinaryExpr::Fold")
  | none, none, none =>
      throw (.rterror "bad type in BinaryExpr::Fold")

/-! ### IncrExpr::DoSingleEval (Expr.cc lines 970-993), claim C10 -/

/-- val_mgr->GetInt. -/
def GetInt (k : Int) : Val := .vint k

/-- val_mgr->GetCount (reached only with a non-negative argument on the
modelled paths). -/
def GetCount (k : Int) : Val := .vcount k.toNat

/-- IncrExpr::DoSingleEval: coerce the old value to the signed domain,
increment or decrement, raise "count underflow" when a decrement of an
unsigned-representation value went negative, and rebuild the result from
the node's (yield) type.  Increment performs no overflow check. -/
def IncrExpr.DoSingleEval (isIncr : Bool) (ty : Option TypeTag) (v : Val) :
    Except Fail Val := do
  let k0 ← match v.coerceToInt with
    | some k => pure k
    | none => throw (.crash "bad type in Val::CoerceToInt")
  let k ← if isIncr then pure (k0 + 1)
    else do
      let k := k0 - 1
      if k < 0 && v.internalIsUnsigned then throw (.rterror "count underflow")
      else pure k
  let retTy ← match ty with
    | some t => pure t
    | none => throw (.crash "null type in IncrExpr::DoSingleEval")
  let retTy := if retTy.isVector then retTy.yieldType else retTy
  if retTy = .tint then pure (GetInt k) else pure (GetCount k)

/-! ### Expression nodes and evaluation

Each node carries the error flag set (permanently) at construction, the
owned static type descriptor (`none` models a type pointer that was never
set because construction failed before `SetType`), and its kind payload.
The evaluation state is the frame's variable slots plus the queue of
events handed to `mgr.QueueEvent`.  Reference-count bookkeeping
(`Ref`/`Unref`) manages lifetime only and is not modelled. -/

/-- Frame plus event queue: the evaluation context of the spec. -/
structure EvalState where
  frame : List (String × Val)
  events : List (String × List Val)

/-- Frame::GetElement — lookup of a variable slot by identifier. -/
def frameLookup : List (String × Val) → String → Option Val
  | [], _ => none
  | (k, w) :: rest, id => if k = id then some w else frameLookup rest id

/-- Frame::SetElement — assignment of a variable slot by identifier. -/
def frameSet : List (String × Val) → String → Val → List (String × Val)
  | [], id, v => [(id, v)]
  | (k, w) :: rest, id, v =>
      if k = id then (id, v) :: rest else (k, w) :: frameSet rest id v

mutual

/-- Expression kinds the claims exercise (constants, names, binary
arithmetic, boolean `and`/`or`, increment/decrement, indexing, events).
The operand of `eincr` is the `MakeLvalue()`-converted expression; the
`RefExpr` wrapper it produces forwards both `Eval` and `Assign` to the
wrapped node, so it is represented by the wrapped node itself. -/
inductive ExprKind where
  | econst (v : Val)
  | ename (id : String)
  | ebinary (tag : BTag) (op1 op2 : Expr)
  | ebool (isAnd : Bool) (op1 op2 : Expr)
  | eincr (isIncr : Bool) (op : Expr)
  | eindex (op1 op2 : Expr)
  | eevent (handler : String) (args : List Expr)

/-- An expression node: error flag, static type, kind. -/
inductive Expr where
  | mk (err : Bool) (ty : Option TypeTag) (kind : ExprKind)

end

/-- Expr::IsError. -/
def Expr.IsError : Expr → Bool
  | .mk e _ _ => e

/-- Expr::Type (null when construction failed before `SetType`). -/
def Expr.type : Expr → Option TypeTag
  | .mk _ t _ => t

/-- is_vector(Expr*): the node's static type is a vector type. -/
def Expr.isVector (e : Expr) : Bool :=
  match e.type with
  | some (.tvector _) => true
  | _ => false

/-- Modelled from the spec: `VectorVal::Lookup(unsigned int)` lives in
Val.cc/Val.h, not under src/; per the container contract it returns null
for an out-of-range index and the stored (possibly absent) cell
otherwise. -/
def vecLookup (elems : List (Option Val)) (i : Nat) : Option Val :=
  match elems.get? i with
  | some o => o
  | none => none

/-- Modelled from the spec: `VectorVal::Assign(index, v)` (Val.cc, not
under src/) grows the vector with undefined cells so that `index` exists,
then stores `v` (possibly the absent cell) there. -/
def vecAssign (elems : List (Option Val)) (i : Nat) (v : Option Val) :
    List (Option Val) :=
  if i < elems.length then elems.set i v
  else elems ++ List.replicate (i - elems.length) none ++ [v]

/-- Elementwise loop of BinaryExpr::Eval for two equal-sized vector
operands (lines 480-489): positions where both cells are defined get the
scalar fold, every other position an undefined cell. -/
def foldVecVec (tag : BTag) (ty : Option TypeTag) :
    List (Option Val) → List (Option Val) → Except Fail (List (Option Val))
  | o1 :: r1, o2 :: r2 => do
      let cell ← match o1, o2 with
        | some x, some y => do pure (some (← BinaryExpr.Fold tag ty x y))
        | _, _ => pure none
      let rest ← foldVecVec tag ty r1 r2
      pure (cell :: rest)
  | _, _ => pure []

/-- Broadcast loop of BinaryExpr::Eval (lines 496-517): fold the scalar
operand against each defined cell of the vector operand, on the side the
vector came from. -/
def foldVecScalar (tag : BTag) (ty : Option TypeTag) (vecFirst : Bool)
    (scalar : Val) : List (Option Val) → Except Fail (List (Option Val))
  | [] => pure []
  | o :: r => do
      let cell ← match o with
        | some x =>
            if vecFirst then do pure (some (← BinaryExpr.Fold tag ty x scalar))
            else do pure (some (← BinaryExpr.Fold tag ty scalar x))
        | none => pure none
      let rest ← foldVecScalar tag ty vecFirst scalar r
      pure (cell :: rest)

/-- Elementwise loop of BoolExpr::Eval for two equal-sized vector operands
(lines 1648-1662). -/
def boolVecVec (isAnd : Bool) :
    List (Option Val) → List (Option Val) → List (Option Val)
  | o1 :: r1, o2 :: r2 =>
      (match o1, o2 with
       | some x, some y =>
           some (.vbool (if isAnd then !x.isZero && !y.isZero
                         else !x.isZero || !y.isZero))
       | _, _ => none) :: boolVecVec isAnd r1 r2
  | _, _ => []

/-- Modelled from the spec: `VectorVal::Lookup(Val*)` (Val.cc, not under
src/) resolves a single scalar index value against the vector: an in-range
index returns the stored cell, everything else null. -/
def vecLookupByVal (elems : List (Option Val)) (idx : Val) :
    Except Fail (Option Val) :=
  match idx.coerceToInt with
  | some i =>
      if 0 ≤ i ∧ i < (elems.length : Int) then pure (vecLookup elems i.toNat)
      else pure none
  | none => throw (.crash "bad type in Val::CoerceToInt")

/-- Copy loop of the vector-slice branch of IndexExpr::Fold (lines
2686-2690): `count` cells starting at `first`, each dereferenced with
`Ref()` (a crash on an undefined cell). -/
def sliceGather (elems : List (Option Val)) :
    Nat → Nat → Except Fail (List (Option Val))
  | _, 0 => pure []
  | first, n + 1 => do
      let v ← match vecLookup elems first with
        | some v => pure v
        | none => throw (.crash "null element dereference in vector slice")
      let rest ← sliceGather elems (first + 1) n
      pure (some v :: rest)

/-- IndexExpr::Fold (lines 2660-2743), restricted to vector bases (the
table and string branches dispatch on value representations outside the
modelled universe; every other base hits the default "type cannot be
indexed" error).  An erroneous node folds to null before anything else. -/
def IndexExpr.Fold (err : Bool) (v1 v2 : Val) : Except Fail (Option Val) :=
  if err then pure none
  else
    match v1 with
    | .vvec yt elems =>
        match v2 with
        | .vlist [x] => do
            let v ← vecLookupByVal elems x
            match v with
            | some v => pure (some v)
            | none => throw (.rterror "no such index")
        | .vlist (x :: y :: _) => do
            let len : Int := elems.length
            let ix ← match x.coerceToInt with
              | some i => pure i
              | none => throw (.crash "bad type in Val::CoerceToInt")
            let iy ← match y.coerceToInt with
              | some i => pure i
              | none => throw (.crash "bad type in Val::CoerceToInt")
            let first := get_slice_index ix len
            let last := get_slice_index iy len
            let subLength := last - first
            if 0 ≤ subLength then do
              let es ← sliceGather elems first.toNat subLength.toNat
              pure (some (.vvec yt es))
            else
              pure (some (.vvec yt []))
        | .vlist [] => throw (.crash "ListVal::Index(0) out of range")
        | _ => throw (.crash "AsListVal on a non-list value")
    | _ => throw (.rterror "type cannot be indexed")

/-- Boolean-selection loop of IndexExpr::Eval (lines 2626-2631), with the
source's `Assign(v_result->Size() + 1, v_v1->Lookup(i))` writing each
selected element one past the current end of the result. -/
def boolSelect (base : List (Option Val)) :
    List (Option Val) → Nat → List (Option Val) →
    Except Fail (List (Option Val))
  | [], _, acc => pure acc
  | o :: rest, i, acc => do
      let b ← match o with
        | some (.vbool b) => pure b
        | some _ => throw (.crash "Val::AsBool on a non-bool value")
        | none => throw (.crash "null element dereference in boolean vector index")
      let acc := if b then vecAssign acc (acc.length + 1) (vecLookup base i)
        else acc
      boolSelect base rest (i + 1) acc

/-- Integer-gather loop of IndexExpr::Eval (lines 2637-2639): each index
element is coerced to the signed domain, truncated by the
`unsigned int` parameter of `VectorVal::Lookup`, and the referenced cell
(absent when out of range) stored in order. -/
def intGather (base : List (Option Val)) :
    List (Option Val) → Except Fail (List (Option Val))
  | [] => pure []
  | o :: rest => do
      let w ← match o with
        | some v => pure v
        | none => throw (.crash "null element dereference in integer vector index")
      let idx ← match w.coerceToInt with
        | some i => pure i
        | none => throw (.crash "bad type in Val::CoerceToInt")
      let cell := vecLookup base (idx % 4294967296).toNat
      let rest ← intGather base rest
      pure (cell :: rest)

/-- Per-element loop of the (deprecated) vector path of IncrExpr::Eval
(lines 1002-1015). -/
def incrVecLoop (isIncr : Bool) (ty : Option TypeTag) :
    List (Option Val) → Except Fail (List (Option Val))
  | [] => pure []
  | o :: rest => do
      let cell ← match o with
        | some v => do pure (some (← IncrExpr.DoSingleEval isIncr ty v))
        | none => pure none
      let rest ← incrVecLoop isIncr ty rest
      pure (cell :: rest)

/-- Mixed scalar/vector tail of BoolExpr::Eval (lines 1610-1628): when the
scalar decides the operator (`IsZero() == is_and`), a fresh vector of the
node's type is filled with the scalar by `AssignRepeat`; otherwise the
vector operand itself is the result. -/
def boolMixedResult (isAnd : Bool) (ty : Option TypeTag) (scalar : Val)
    (yv : TypeTag) (ves : List (Option Val)) : Except Fail (Option Val) :=
  if scalar.isZero == isAnd then
    match ty with
    | some (.tvector y) =>
        .ok (some (.vvec y (List.replicate ves.length (some scalar))))
    | _ => .error (.crash "AsVectorType on a non-vector type")
  else
    .ok (some (.vvec yv ves))

/-- Expr::Assign for the lvalue forms the model contains: NameExpr::Assign
(lines 265-271) writes the frame slot; every other kind refuses (the
default Expr::Assign reports "illegal assignment" — an internal abort in
this model, which never exercises it). -/
def exprAssign (op : Expr) (v : Val) (s : EvalState) :
    Except Fail EvalState :=
  match op with
  | .mk _ _ (.ename id) => pure { s with frame := frameSet s.frame id v }
  | _ => throw (.crash "assignment to a non-assignable expression")

mutual

/-- Evaluation of an expression node against an evaluation state,
dispatching on the node's kind exactly as the per-kind `Eval` overrides
do.  The first component is the C++ return channel (`some v` a value,
`none` the null pointer) or the thrown failure; the second the state
after whatever side effects occurred. -/
def eval : Expr → EvalState → (Except Fail (Option Val)) × EvalState
  -- ConstExpr::Eval (lines 328-331): no error-flag check.
  | .mk _ _ (.econst v), s => (.ok (some v), s)
  -- NameExpr::Eval (lines 225-249), local identifiers: no error-flag
  -- check; an unset slot raises "value used but not set".
  | .mk _ _ (.ename id), s =>
      match frameLookup s.frame id with
      | some v => (.ok (some v), s)
      | none => (.error (.rterror "value used but not set"), s)
  -- BinaryExpr::Eval (lines 446-525).
  | .mk err ty (.ebinary tag op1 op2), s =>
      if err then (.ok none, s)
      else
        match eval op1 s with
        | (.error e, s1) => (.error e, s1)
        | (.ok none, s1) => (.ok none, s1)
        | (.ok (some v1), s1) =>
          match eval op2 s1 with
          | (.error e, s2) => (.error e, s2)
          | (.ok none, s2) => (.ok none, s2)
          | (.ok (some v2), s2) =>
            match v1, v2 with
            | .vvec _y1 es1, .vvec _y2 es2 =>
                -- fold pairs of elements (lines 467-494)
                if es1.length ≠ es2.length then
                  (.error (.rterror "vector operands are of different sizes"), s2)
                else
                  match ty with
                  | some (.tvector y) =>
                      (match foldVecVec tag ty es1 es2 with
                       | .ok es => (.ok (some (.vvec y es)), s2)
                       | .error e => (.error e, s2))
                  | _ => (.error (.crash "AsVectorType on a non-vector type"), s2)
            | v1, v2 =>
              match ty with
              | none => (.error (.crash "null type dereference in BinaryExpr::Eval"), s2)
              | some t =>
                if t.isVector && (v1.isVector || v2.isVector) then
                  -- fold vector against scalar (lines 496-517)
                  match t with
                  | .tvector y =>
                    (match v1, v2 with
                     | .vvec _ es1, sc =>
                         (match foldVecScalar tag ty true sc es1 with
                          | .ok es => (.ok (some (.vvec y es)), s2)
                          | .error e => (.error e, s2))
                     | sc, .vvec _ es2 =>
                         (match foldVecScalar tag ty false sc es2 with
                          | .ok es => (.ok (some (.vvec y es)), s2)
                          | .error e => (.error e, s2))
                     | _, _ => (.error (.crash "AsVectorVal on a non-vector value"), s2))
                  | _ => (.error (.crash "AsVectorType on a non-vector type"), s2)
                else
                  -- scalar op scalar (line 520)
                  match BinaryExpr.Fold tag ty v1 v2 with
                  | .ok v => (.ok (some v), s2)
                  | .error e => (.error e, s2)
  -- BoolExpr::Eval (lines 1572-1668).
  | .mk err ty (.ebool isAnd op1 op2), s =>
      if err then (.ok none, s)
      else
        match eval op1 s with
        | (.error e, s1) => (.error e, s1)
        | (.ok none, s1) => (.ok none, s1)
        | (.ok (some v1), s1) =>
          if !op1.isVector && !op2.isVector then
            -- scalar op scalar: BoolExpr::DoSingleEval (lines 1543-1569)
            if isAnd then
              if v1.isZero then (.ok (some v1), s1) else eval op2 s1
            else
              if v1.isZero then eval op2 s1 else (.ok (some v1), s1)
          else if !(op1.isVector && op2.isVector) then
            -- scalar op vector / vector op scalar (lines 1591-1629)
            if op1.isVector then
              match eval op2 s1 with
              | (.error e, s2) => (.error e, s2)
              | (.ok sc, s2) =>
                  match v1 with
                  | .vvec yv ves =>
                      (match sc with
                       | none => (.ok none, s2)
                       | some scv => (boolMixedResult isAnd ty scv yv ves, s2))
                  | _ => (.error (.crash "AsVectorVal on a non-vector value"), s2)
            else
              match eval op2 s1 with
              | (.error e, s2) => (.error e, s2)
              | (.ok none, s2) =>
                  (.error (.crash "AsVectorVal on a null pointer"), s2)
              | (.ok (some w), s2) =>
                  match w with
                  | .vvec yv ves => (boolMixedResult isAnd ty v1 yv ves, s2)
                  | _ => (.error (.crash "AsVectorVal on a non-vector value"), s2)
          else
            -- both operands are vectors (lines 1631-1667)
            match eval op2 s1 with
            | (.error e, s2) => (.error e, s2)
            | (.ok none, s2) => (.ok none, s2)
            | (.ok (some v2), s2) =>
                match v1, v2 with
                | .vvec _ es1, .vvec _ es2 =>
                    if es1.length ≠ es2.length then
                      (.error (.rterror "vector operands have different sizes"), s2)
                    else
                      match ty with
                      | some (.tvector y) =>
                          (.ok (some (.vvec y (boolVecVec isAnd es1 es2))), s2)
                      | _ => (.error (.crash "AsVectorType on a non-vector type"), s2)
                | _, _ => (.error (.crash "AsVectorVal on a non-vector value"), s2)
  -- IncrExpr::Eval (lines 996-1027): no error-flag check.
  | .mk _ ty (.eincr isIncr op), s =>
      match eval op s with
      | (.error e, s1) => (.error e, s1)
      | (.ok none, s1) => (.ok none, s1)
      | (.ok (some v), s1) =>
          match v with
          | .vvec yv es =>
              (match incrVecLoop isIncr ty es with
               | .error e => (.error e, s1)
               | .ok es' =>
                   (match exprAssign op (.vvec yv es') s1 with
                    | .error e => (.error e, s1)
                    | .ok s2 => (.ok (some (.vvec yv es')), s2)))
          | _ =>
              match IncrExpr.DoSingleEval isIncr ty v with
              | .error e => (.error e, s1)
              | .ok v' =>
                  (match exprAssign op v' s1 with
                   | .error e => (.error e, s1)
                   | .ok s2 => (.ok (some v'), s2))
  -- IndexExpr::Eval (lines 2593-2648): no error-flag check.
  | .mk err ty (.eindex op1 op2), s =>
      match eval op1 s with
      | (.error e, s1) => (.error e, s1)
      | (.ok none, s1) => (.ok none, s1)
      | (.ok (some v1), s1) =>
        match eval op2 s1 with
        | (.error e, s2) => (.error e, s2)
        | (.ok none, s2) => (.ok none, s2)
        | (.ok (some v2), s2) =>
          match v2 with
          | .vlist (indv :: _) =>
              match indv with
              | .vvec ity idxes =>
                  -- index by a vector (lines 2609-2641)
                  (match v1 with
                   | .vvec _ baseEs =>
                     (match ty with
                      | some (.tvector y) =>
                        if ity = .tbool then
                          -- booleans select each element, or not
                          if baseEs.length ≠ idxes.length then
                            (.error (.rterror "size mismatch, boolean index and vector"), s2)
                          else
                            (match boolSelect baseEs idxes 0 [] with
                             | .ok es => (.ok (some (.vvec y es)), s2)
                             | .error e => (.error e, s2))
                        else
                          -- the elements are indices
                          (match intGather baseEs idxes with
                           | .ok es => (.ok (some (.vvec y es)), s2)
                           | .error e => (.error e, s2))
                      | _ => (.error (.crash "AsVectorType on a non-vector type"), s2))
                   | _ => (.error (.crash "AsVectorVal on a non-vector value"), s2))
              | _ =>
                  -- scalar index (line 2643)
                  match IndexExpr.Fold err v1 v2 with
                  | .ok r => (.ok r, s2)
                  | .error e => (.error e, s2)
          | .vlist [] => (.error (.crash "ListVal::Index(0) out of range"), s2)
          | _ => (.error (.crash "AsListVal on a non-list value"), s2)
  -- EventExpr::Eval (lines 4458-4468): `eval_list`'s null result is
  -- dereferenced unconditionally by `std::move(*v)`.
  | .mk err _ (.eevent handler args), s =>
      if err then (.ok none, s)
      else
        match evalArgs args s with
        | (.error e, s1) => (.error e, s1)
        | (.ok none, s1) =>
            (.error (.crash "null val_list dereference in EventExpr::Eval"), s1)
        | (.ok (some vs), s1) =>
            (.ok none, { s1 with events := s1.events ++ [(handler, vs)] })

/-- eval_list (lines 5198-5225): evaluate the expressions left to right;
a null result abandons the remaining expressions and yields the null
list; a thrown failure propagates. -/
def evalArgs : List Expr → EvalState → (Except Fail (Option (List Val))) × EvalState
  | [], s => (.ok (some []), s)
  | e :: rest, s =>
      match eval e s with
      | (.error e', s1) => (.error e', s1)
      | (.ok none, s1) => (.ok none, s1)
      | (.ok (some v), s1) =>
          match evalArgs rest s1 with
          | (.error e', s2) => (.error e', s2)
          | (.ok none, s2) => (.ok none, s2)
          | (.ok (some vs), s2) => (.ok (some (v :: vs)), s2)

end

/-! ### Record coercion (RecordCoerceExpr, Expr.cc lines 3555-3786)

The record model is kept separate from the evaluator's value universe:
record types (`RecordType`) are ordered lists of named, typed fields with
the `&optional` flag and, when present, the `&default` attribute
expression represented by its evaluated value (the attribute expression
is evaluated with a null frame each time it is consulted; the model
carries the resulting constant). -/

mutual

/-- Field type tags for the record model. -/
inductive FTy where
  | fbool
  | fint
  | fcount
  | fdouble
  | fstring
  | frec (fields : List CField)

/-- A record field declaration: name, type, `&optional` flag, `&default`
attribute (by its evaluated value). -/
inductive CField where
  | mk (fname : String) (fty : FTy) (fopt : Bool) (fdefault : Option RVal)

/-- Runtime values of the record model; a record value carries its record
type (`RecordVal::Type()`), and a field cell may be absent. -/
inductive RVal where
  | rbool (b : Bool)
  | rint (i : Int)
  | rcount (n : Nat)
  | rdouble (q : Rat)
  | rstr (s : String)
  | rrec (rty : List CField) (fields : List (Option RVal))

end

/-- Field name accessor. -/
def CField.fname : CField → String
  | .mk n _ _ _ => n

/-- Field type accessor. -/
def CField.fty : CField → FTy
  | .mk _ t _ _ => t

/-- FieldDecl::FindAttr(ATTR_OPTIONAL). -/
def CField.fopt : CField → Bool
  | .mk _ _ o _ => o

/-- FieldDecl::FindAttr(ATTR_DEFAULT), by the attribute expression's
evaluated value. -/
def CField.fdefault : CField → Option RVal
  | .mk _ _ _ d => d

mutual

/-- Modelled from the spec: `same_type` lives in Type.cc, not under src/;
per the spec's data model, two composite types are "same" only by
recursive structural comparison — field names, types and attribute
compatibility must all match. -/
def sameFTy : FTy → FTy → Bool
  | .fbool, .fbool => true
  | .fint, .fint => true
  | .fcount, .fcount => true
  | .fdouble, .fdouble => true
  | .fstring, .fstring => true
  | .frec fs, .frec gs => sameFieldList fs gs
  | _, _ => false

/-- Structural comparison of field lists, in order. -/
def sameFieldList : List CField → List CField → Bool
  | [], [] => true
  | f :: fs, g :: gs => sameCField f g && sameFieldList fs gs
  | _, _ => false

/-- Structural comparison of one field declaration. -/
def sameCField : CField → CField → Bool
  | .mk n1 t1 o1 d1, .mk n2 t2 o2 d2 =>
      n1 == n2 && sameFTy t1 t2 && o1 == o2 && d1.isSome == d2.isSome

end

/-- RecordType::FieldOffset — modelled from the spec (Type.cc is not under
src/): the position of the named field, negative when absent. -/
def fieldOffset (fields : List CField) (name : String) : Int :=
  match fields.findIdx? (fun f => f.fname == name) with
  | some i => i
  | none => -1

/-- Find a field declaration by name. -/
def recFindField (fields : List CField) (name : String) : Option CField :=
  fields.find? (fun f => f.fname == name)

/-- IsArithmetic on field type tags. -/
def FTy.isArithmetic : FTy → Bool
  | .fint => true
  | .fcount => true
  | .fdouble => true
  | _ => false

/-- IsIntegral on field type tags. -/
def FTy.isIntegral : FTy → Bool
  | .fint => true
  | .fcount => true
  | _ => false

/-- BothArithmetic. -/
def bothArithmetic (a b : FTy) : Bool :=
  a.isArithmetic && b.isArithmetic

/-- is_arithmetic_promotable (the lambda at lines 3599-3614): arithmetic
pairs, excluding the narrowing double-to-integral and signed-to-unsigned
directions. -/
def isArithmeticPromotable (sup sub : FTy) : Bool :=
  if !bothArithmetic sup sub then false
  else
    match sub, sup with
    | .fdouble, .fint => false
    | .fdouble, .fcount => false
    | .fint, .fcount => false
    | _, _ => true

/-- record_promotion_compatible — modelled from the spec (Type.cc is not
under src/): a recursive structural check, modelled conservatively as
requiring every destination field either to have a structurally equal
same-named source field or to be optional or defaulted. -/
def recordPromotionCompatible (sup sub : List CField) : Bool :=
  sup.all fun f =>
    match recFindField sub f.fname with
    | some g => sameFTy f.fty g.fty
    | none => f.fopt || f.fdefault.isSome

/-- is_record_promotable (the lambda at lines 3616-3626). -/
def isRecordPromotable (sup sub : FTy) : Bool :=
  match sup, sub with
  | .frec a, .frec b => recordPromotionCompatible a b
  | _, _ => false

/-- First loop of the RecordCoerceExpr constructor (lines 3584-3640):
walk the source fields at index `i`, locate the same-named destination
field (error "orphaned field" when absent), check type compatibility
(error "type clash" unless same, arithmetic-promotable or
record-promotable), and record the source index in the destination's map
slot.  An error abandons the loop, as the `break` does. -/
def buildCoerceMap (t_r : List CField) :
    Nat → List CField → List Int → (List Int × Option String)
  | _, [], m => (m, none)
  | i, f :: rest, m =>
      match recFindField t_r f.fname with
      | none =>
          (m, some ("orphaned field \"" ++ f.fname ++ "\" in record coercion"))
      | some supF =>
          if !sameFTy supF.fty f.fty && !isArithmeticPromotable supF.fty f.fty
              && !isRecordPromotable supF.fty f.fty then
            (m, some ("type clash for field \"" ++ f.fname ++ "\""))
          else
            buildCoerceMap t_r (i + 1) rest
              (m.set (fieldOffset t_r f.fname).toNat (i : Int))

/-- Second loop of the RecordCoerceExpr constructor (lines 3645-3660):
an unmapped destination field must carry `&optional`, else the
construction fails with "non-optional field missing".  (The deprecation
branch only emits a warning.) -/
def findMissing : List CField → List Int → Option String
  | f :: fs, mi :: ms =>
      if mi = -1 then
        if !f.fopt then some ("non-optional field \"" ++ f.fname ++ "\" missing")
        else findMissing fs ms
      else findMissing fs ms
  | _, _ => none

/-- A constructed RecordCoerceExpr node: the destination record type (the
node's type), the operand's record type, the once-computed coercion map
and the construction-time error, if any (`SetError` marking the node
permanently erroneous). -/
structure RecordCoerceNode where
  dest : List CField
  src : List CField
  map : List Int
  errmsg : Option String

/-- RecordCoerceExpr::RecordCoerceExpr (lines 3555-3662), for two record
types: initialize every map slot to "not mapped", run the mapping loop,
and (only when it reported no error, line 3642) the missing-field
check. -/
def mkRecordCoerce (dest src : List CField) : RecordCoerceNode :=
  let m0 := List.replicate dest.length (-1 : Int)
  match buildCoerceMap dest 0 src m0 with
  | (m, some msg) => { dest := dest, src := src, map := m, errmsg := some msg }
  | (m, none) => { dest := dest, src := src, map := m, errmsg := findMissing dest m }

/-- Runtime type of a record-model value. -/
def RVal.rtype : RVal → FTy
  | .rbool _ => .fbool
  | .rint _ => .fint
  | .rcount _ => .fcount
  | .rdouble _ => .fdouble
  | .rstr _ => .fstring
  | .rrec rty _ => .frec rty

/-- Field value of a record value, by field name. -/
def rvLookupField (sty : List CField) (vals : List (Option RVal)) (name : String) :
    Option RVal :=
  match sty.findIdx? (fun f => f.fname == name) with
  | some j =>
      (match vals.get? j with
       | some o => o
       | none => none)
  | none => none

/-- check_and_promote — modelled from the spec (defined outside src/):
promote a value along the arithmetic lattice to the requested type;
narrowing directions fail.  Only consulted for arithmetic, non-same
pairs. -/
def checkAndPromote (v : RVal) (t : FTy) : Option RVal :=
  match v, t with
  | .rint i, .fdouble => some (.rdouble (i : Rat))
  | .rcount n, .fdouble => some (.rdouble (n : Rat))
  | .rcount n, .fint => some (.rint (n : Int))
  | _, _ => none

/-- RecordVal::CoerceTo — modelled from the spec (Val.cc is not under
src/): materialize a record of the destination type, filling each field
from the same-named source field, else its default, else leaving it
absent; fail when a non-optional field stays absent. -/
def recordCoerceTo (destFields : List CField) (v : RVal) : Option RVal :=
  match v with
  | .rrec sty vals =>
      let fills := destFields.map (fun f =>
        match rvLookupField sty vals f.fname with
        | some w => some w
        | none => f.fdefault)
      if (destFields.zip fills).all (fun p => p.1.fopt || p.2.isSome) then
        some (.rrec destFields fills)
      else none
  | _ => none

/-- Per-field loop of RecordCoerceExpr::Fold (lines 3694-3783), walking
the destination fields in step with the coercion map.  A mapped field
takes the source value, falling back to the source field's own default;
a value that is still absent asserts the destination field optional and
stays absent.  A present value of a different record type is re-coerced
(kept as-is when that fails); a present arithmetic value of a non-same
type is promoted, a failure raising "Failed type conversion".  An
unmapped field takes its own default (re-coerced the same way) or stays
absent. -/
def coerceFoldCell (sty : List CField) (vals : List (Option RVal))
    (f : CField) (mi : Int) : Except Fail (Option RVal) :=
  if 0 ≤ mi then
    let j := mi.toNat
    let rhs0 :=
      match vals.get? j with
      | some o => o
      | none => none
    let rhs :=
      match rhs0 with
      | some w => some w
      | none =>
          match sty.get? j with
          | some g => g.fdefault
          | none => none
    match rhs with
    | none =>
        if f.fopt then pure none
        else throw (.crash "assertion failure in RecordCoerceExpr::Fold")
    | some rhs =>
        let rhsTy := rhs.rtype
        match rhsTy, f.fty with
        | .frec _, .frec dfs =>
            if !sameFTy rhsTy f.fty then
              (match recordCoerceTo dfs rhs with
               | some w => pure (some w)
               | none => pure (some rhs))
            else pure (some rhs)
        | _, _ =>
            if bothArithmetic rhsTy f.fty && !sameFTy rhsTy f.fty then
              match checkAndPromote rhs f.fty with
              | some w => pure (some w)
              | none => throw (.rterror "Failed type conversion")
            else pure (some rhs)
  else
    match f.fdefault with
    | some defVal =>
        (match defVal.rtype, f.fty with
         | .frec _, .frec dfs =>
             if !sameFTy defVal.rtype f.fty then
               (match recordCoerceTo dfs defVal with
                | some w => pure (some w)
                | none => pure (some defVal))
             else pure (some defVal)
         | _, _ => pure (some defVal))
    | none => pure none

/-- Walk the destination fields in step with the coercion map, computing
each cell with `coerceFoldCell`. -/
def coerceFoldLoop (sty : List CField) (vals : List (Option RVal)) :
    List CField → List Int → Except Fail (List (Option RVal))
  | [], _ => pure []
  | f :: fs, mi :: ms => do
      let cell ← coerceFoldCell sty vals f mi
      let rest ← coerceFoldLoop sty vals fs ms
      pure (cell :: rest)
  | _ :: _, [] => throw (.crash "coercion map shorter than destination record")

/-- RecordCoerceExpr::Fold (lines 3689-3786): materialize a record of the
destination type by running the per-field loop over the coercion map. -/
def RecordCoerceExpr.Fold (node : RecordCoerceNode) (v : RVal) :
    Except Fail RVal :=
  match v with
  | .rrec sty vals => do
      let fields ← coerceFoldLoop sty vals node.dest node.map
      pure (.rrec node.dest fields)
  | _ => throw (.crash "AsRecordVal on a non-record value")

/-! ## Theorems about the claims -/

/-- Reduction of a successful bind in the `Except` monad. -/
theorem except_ok_bind {ε α β : Type} (a : α) (f : α → Except ε β) :
    (Except.ok a >>= f : Except ε β) = f a := rfl

/-- Reduction of a failing bind in the `Except` monad. -/
theorem except_error_bind {ε α β : Type} (e : ε) (f : α → Except ε β) :
    (Except.error e >>= f : Except ε β) = Except.error e := rfl

/-- Reduction of `throw` in the `Except` monad. -/
theorem except_throw {ε α : Type} (e : ε) :
    (throw e : Except ε α) = Except.error e := rfl

/-- C8: for every slice index into a container of length `len`, an index
whose absolute value exceeds `len` is clamped to `len` (if positive) or to
`0` (if negative), and a negative index with absolute value at most `len`
resolves to `len + idx`. -/
theorem C8_get_slice_index_clamp (idx len : Int) (_hlen : 0 ≤ len) :
    ((idx.natAbs : Int) > len →
        get_slice_index idx len = if 0 < idx then len else 0) ∧
    (idx < 0 → (idx.natAbs : Int) ≤ len →
        get_slice_index idx len = len + idx) := by
  unfold get_slice_index
  refine ⟨fun h => ?_, fun h1 h2 => ?_⟩
  · rw [if_pos h]
  · rw [if_neg (by omega), if_pos h1]
    omega

/-- Witness for C8 at length 5: index -1 resolves to position 4, index -7
clamps to position 0, index 6 clamps to position 5. -/
theorem C8_get_slice_index_clamp_witness :
    get_slice_index (-1) 5 = 4 ∧ get_slice_index (-7) 5 = 0 ∧
    get_slice_index 6 5 = 5 := by
  refine ⟨?_, ?_, ?_⟩
  · have h := (C8_get_slice_index_clamp (-1) 5 (by decide)).2 (by decide) (by decide)
    simpa using h
  · have h := (C8_get_slice_index_clamp (-7) 5 (by decide)).1 (by decide)
    simpa using h
  · have h := (C8_get_slice_index_clamp 6 5 (by decide)).1 (by decide)
    simpa using h

/-- C10: decrementing an unsigned (count) value 0 fails with the runtime
error "count underflow" and produces no value; decrementing any count
value of at least 1 yields its predecessor; increment performs no
overflow check and always yields the successor. -/
theorem C10_count_underflow (n : Nat) (h1 : 1 ≤ n) :
    IncrExpr.DoSingleEval false (some .tcount) (.vcount 0)
      = .error (.rterror "count underflow") ∧
    IncrExpr.DoSingleEval false (some .tcount) (.vcount n)
      = .ok (.vcount (n - 1)) ∧
    IncrExpr.DoSingleEval true (some .tcount) (.vcount n)
      = .ok (.vcount (n + 1)) := by
  refine ⟨rfl, ?_, ?_⟩
  · have hn : ¬((n : Int) - 1 < 0) := by omega
    simp [IncrExpr.DoSingleEval, Val.coerceToInt, Val.internalIsUnsigned,
      TypeTag.isVector, TypeTag.yieldType, GetCount, GetInt, pure,
      Except.pure, except_ok_bind, except_throw, hn]
    omega
  · simp [IncrExpr.DoSingleEval, Val.coerceToInt, Val.internalIsUnsigned,
      TypeTag.isVector, TypeTag.yieldType, GetCount, GetInt, pure,
      Except.pure, except_ok_bind, except_throw]

/-- Witness for C10 at count value 5: decrement yields 4, increment yields
6, and decrement at 0 underflows. -/
theorem C10_count_underflow_witness :
    IncrExpr.DoSingleEval false (some .tcount) (.vcount 0)
      = .error (.rterror "count underflow") ∧
    IncrExpr.DoSingleEval false (some .tcount) (.vcount 5)
      = .ok (.vcount 4) ∧
    IncrExpr.DoSingleEval true (some .tcount) (.vcount 5)
      = .ok (.vcount 6) := by
  have h := C10_count_underflow 5 (by decide)
  exact ⟨h.1, h.2.1, h.2.2⟩

/-- C2: folding a division or modulo with a zero divisor raises a runtime
error ("division by zero" / "modulo by zero") and produces no value, in
the signed, unsigned and double domains; a nonzero divisor folds to the
quotient or remainder computed in that domain (C++ signed division and
remainder truncate toward zero, `Int.tdiv` / `Int.tmod`). -/
theorem C2_divide_mod_by_zero (a b : Int) (u v : Nat) (p q : Rat) :
    (b = 0 → BinaryExpr.Fold .divide (some .tint) (.vint a) (.vint b)
        = .error (.rterror "division by zero")) ∧
    (b ≠ 0 → BinaryExpr.Fold .divide (some .tint) (.vint a) (.vint b)
        = .ok (.vint (a.tdiv b))) ∧
    (b = 0 → BinaryExpr.Fold .mod (some .tint) (.vint a) (.vint b)
        = .error (.rterror "modulo by zero")) ∧
    (b ≠ 0 → BinaryExpr.Fold .mod (some .tint) (.vint a) (.vint b)
        = .ok (.vint (a.tmod b))) ∧
    (v = 0 → BinaryExpr.Fold .divide (some .tcount) (.vcount u) (.vcount v)
        = .error (.rterror "division by zero")) ∧
    (v ≠ 0 → BinaryExpr.Fold .divide (some .tcount) (.vcount u) (.vcount v)
        = .ok (.vcount (u / v))) ∧
    (v = 0 → BinaryExpr.Fold .mod (some .tcount) (.vcount u) (.vcount v)
        = .error (.rterror "modulo by zero")) ∧
    (v ≠ 0 → BinaryExpr.Fold .mod (some .tcount) (.vcount u) (.vcount v)
        = .ok (.vcount (u % v))) ∧
    (q = 0 → BinaryExpr.Fold .divide (some .tdouble) (.vdouble p) (.vdouble q)
        = .error (.rterror "division by zero")) ∧
    (q ≠ 0 → BinaryExpr.Fold .divide (some .tdouble) (.vdouble p) (.vdouble q)
        = .ok (.vdouble (p / q))) := by
  refine ⟨fun h => ?_, fun h => ?_, fun h => ?_, fun h => ?_, fun h => ?_,
    fun h => ?_, fun h => ?_, fun h => ?_, fun h => ?_, fun h => ?_⟩ <;>
    simp [BinaryExpr.Fold, Val.internalInt, Val.internalUnsigned,
      Val.internalDouble, foldResult, TypeTag.isVector, TypeTag.yieldType,
      pure, Except.pure, except_ok_bind, except_throw, h]

/-- Witness for C2: 10 divided by 0 over signed integers raises "division
by zero"; nonzero divisors compute in each domain (10 / 3 = 3 signed,
10 / 2 = 5 unsigned, 1 / 2 exact double, 10 mod 3 = 1). -/
theorem C2_divide_mod_by_zero_witness :
    BinaryExpr.Fold .divide (some .tint) (.vint 10) (.vint 0)
      = .error (.rterror "division by zero") ∧
    BinaryExpr.Fold .divide (some .tint) (.vint 10) (.vint 3)
      = .ok (.vint 3) ∧
    BinaryExpr.Fold .mod (some .tcount) (.vcount 10) (.vcount 0)
      = .error (.rterror "modulo by zero") ∧
    BinaryExpr.Fold .divide (some .tcount) (.vcount 10) (.vcount 2)
      = .ok (.vcount 5) ∧
    BinaryExpr.Fold .divide (some .tdouble) (.vdouble 1) (.vdouble 2)
      = .ok (.vdouble (1 / 2)) := by
  refine ⟨(C2_divide_mod_by_zero 10 0 0 0 0 0).1 rfl, ?_, ?_, ?_, ?_⟩
  · have h := (C2_divide_mod_by_zero 10 3 0 0 0 0).2.1 (by decide)
    simpa using h
  · exact (C2_divide_mod_by_zero 0 0 10 0 0 0).2.2.2.2.2.2.1 rfl
  · have h := (C2_divide_mod_by_zero 0 0 10 2 0 0).2.2.2.2.2.1 (by decide)
    simpa using h
  · have h := (C2_divide_mod_by_zero 0 0 0 0 1 2).2.2.2.2.2.2.2.2.2 (by norm_num)
    simpa using h

/-- An erroneous expression node (construction failed, error flag set),
which evaluates to null without raising. -/
def errArgNode : Expr :=
  .mk true none (.ebinary .add (.mk false (some .tint) (.econst (.vint 1)))
    (.mk false (some .tint) (.econst (.vint 1))))

/-- An event expression one of whose arguments is the erroneous node, so
that `eval_list` yields the null list. -/
def eventNode : Expr := .mk false none (.eevent "h" [errArgNode])

/-- C1 (code bug): evaluating an EventExpr whose argument evaluation
fails does NOT fail soft: `eval_list` returns the null list and
`EventExpr::Eval` dereferences it unconditionally (`std::move(*v)`,
Expr.cc line 4464) instead of returning null as every other caller does
(compare `CallExpr::Eval`, line 4268, which tests `func_val && v`).  The
claim's required behavior — return null, no further work — is violated. -/
theorem C1_event_null_arg_crash :
    eval eventNode { frame := [], events := [] } =
      (.error (.crash "null val_list dereference in EventExpr::Eval"),
        { frame := [], events := [] }) := rfl

/-- Base vector [10, 20] for the boolean-index evaluation. -/
def c9Base : Expr :=
  .mk false (some (.tvector .tint))
    (.econst (.vvec .tint [some (.vint 10), some (.vint 20)]))

/-- Index operand: the list expression holding the boolean vector
[T, T].  (List expressions carry a type-list type, which the model's tag
universe does not represent; the evaluator never consults it.) -/
def c9BoolIdx : Expr :=
  .mk false none
    (.econst (.vlist [.vvec .tbool [some (.vbool true), some (.vbool true)]]))

/-- C9 (code bug): indexing the vector [10, 20] by the boolean vector
[T, T] should compact to [10, 20]; the loop at Expr.cc line 2629 assigns
each selected element at `v_result->Size() + 1`, one past the end, so the
result is the 4-vector [undefined, 10, undefined, 20] instead. -/
theorem C9_bool_index_off_by_one :
    eval (.mk false (some (.tvector .tint)) (.eindex c9Base c9BoolIdx))
        { frame := [], events := [] } =
      (.ok (some (.vvec .tint [none, some (.vint 10), none, some (.vint 20)])),
        { frame := [], events := [] }) := rfl

/-- C3: scalar boolean `and`/`or` evaluates the left operand first (state
`s1` below is the state after the left operand alone); `and` returns the
left value, skipping the right operand entirely, when the left value is
falsy, and otherwise continues with the right operand's evaluation; `or`
symmetrically.  A side effect in the right operand therefore does not
occur on the short-circuited branch: the result state is `s1`. -/
theorem C3_bool_short_circuit (isAnd : Bool) (ty : Option TypeTag)
    (op1 op2 : Expr) (s s1 : EvalState) (v1 : Val)
    (h1 : op1.isVector = false) (h2 : op2.isVector = false)
    (hv : eval op1 s = (.ok (some v1), s1)) :
    (v1.isZero = true →
        eval (.mk false ty (.ebool isAnd op1 op2)) s =
          if isAnd then (.ok (some v1), s1) else eval op2 s1) ∧
    (v1.isZero = false →
        eval (.mk false ty (.ebool isAnd op1 op2)) s =
          if isAnd then eval op2 s1 else (.ok (some v1), s1)) := by
  constructor <;> intro hz <;> simp [eval, hv, h1, h2, hz]

/-- The evaluation context of the C3 witness: a counter at zero. -/
def ctrFrame : EvalState := { frame := [("ctr", .vcount 0)], events := [] }

/-- The name expression for the counter. -/
def ctrName : Expr := .mk false (some .tcount) (.ename "ctr")

/-- The side-effecting right operand: `++ctr`. -/
def incrCtr : Expr := .mk false (some .tcount) (.eincr true ctrName)

/-- A constant false left operand. -/
def falseConst : Expr := .mk false (some .tbool) (.econst (.vbool false))

/-- The expression `F && ++ctr`. -/
def andFalseNode : Expr := .mk false (some .tbool) (.ebool true falseConst incrCtr)

/-- Witness for C3: `F && ++ctr` evaluates to false and the counter
incremented by the right operand stays at zero — the side effect did not
occur. -/
theorem C3_bool_short_circuit_witness :
    eval andFalseNode ctrFrame = (.ok (some (.vbool false)), ctrFrame) ∧
    frameLookup (eval andFalseNode ctrFrame).2.frame "ctr"
      = some (.vcount 0) := by
  have h := (C3_bool_short_circuit true (some .tbool) falseConst incrCtr
      ctrFrame ctrFrame (.vbool false) rfl rfl rfl).1 rfl
  have he : eval andFalseNode ctrFrame = (.ok (some (.vbool false)), ctrFrame) := by
    simpa [andFalseNode] using h
  exact ⟨he, by rw [he]; rfl⟩

/-- A constant expression holding an integer vector (cells lifted from
`Option Int`). -/
def constIntVecExpr (es : List (Option Int)) : Expr :=
  .mk false (some (.tvector .tint))
    (.econst (.vvec .tint (es.map (Option.map Val.vint))))

/-- The integer register fold of `BinaryExpr::Fold` per operator tag
(C++ signed division/remainder truncate toward zero). -/
def intArith : BTag → Int → Int → Int
  | .add, a, b => a + b
  | .sub, a, b => a - b
  | .times, a, b => a * b
  | .divide, a, b => a.tdiv b
  | .mod, a, b => a.tmod b

/-- On two signed-integer scalars, the total operators fold to the
integer register result. -/
theorem fold_vint_total (tag : BTag)
    (htag : tag = .add ∨ tag = .sub ∨ tag = .times) (x y : Int) :
    BinaryExpr.Fold tag (some (.tvector .tint)) (.vint x) (.vint y)
      = .ok (.vint (intArith tag x y)) := by
  rcases htag with rfl | rfl | rfl <;> rfl

/-- On two signed-integer scalars, divide and modulo fold to the integer
register result whenever the divisor is nonzero. -/
theorem fold_vint_div_mod_nonzero (x y : Int) (hy : y ≠ 0) :
    BinaryExpr.Fold .divide (some (.tvector .tint)) (.vint x) (.vint y)
      = .ok (.vint (intArith .divide x y)) ∧
    BinaryExpr.Fold .mod (some (.tvector .tint)) (.vint x) (.vint y)
      = .ok (.vint (intArith .mod x y)) := by
  constructor <;>
    simp [BinaryExpr.Fold, Val.internalInt, foldResult, TypeTag.isVector,
      TypeTag.yieldType, intArith, pure, Except.pure, except_ok_bind,
      except_throw, hy]

/-- On two signed-integer scalars, divide and modulo with a zero divisor
raise the domain's runtime error. -/
theorem fold_vint_div_mod_zero (x : Int) :
    BinaryExpr.Fold .divide (some (.tvector .tint)) (.vint x) (.vint 0)
      = .error (.rterror "division by zero") ∧
    BinaryExpr.Fold .mod (some (.tvector .tint)) (.vint x) (.vint 0)
      = .error (.rterror "modulo by zero") := ⟨rfl, rfl⟩

/-- The elementwise loop on lifted integer vectors produces exactly the
pointwise zip — a fold where both cells are defined, an undefined cell
elsewhere — whenever the scalar fold succeeds at every defined pair. -/
theorem foldVecVec_lift (tag : BTag) :
    ∀ es1 es2 : List (Option Int), es1.length = es2.length →
      (∀ x y : Int, (some x, some y) ∈ es1.zip es2 →
        BinaryExpr.Fold tag (some (.tvector .tint)) (.vint x) (.vint y)
          = .ok (.vint (intArith tag x y))) →
      foldVecVec tag (some (.tvector .tint)) (es1.map (Option.map Val.vint))
          (es2.map (Option.map Val.vint))
        = .ok (List.zipWith (fun o1 o2 =>
            match o1, o2 with
            | some x, some y => some (Val.vint (intArith tag x y))
            | _, _ => none) es1 es2) := by
  intro es1
  induction es1 with
  | nil =>
      intro es2 h _
      cases es2 with
      | nil => rfl
      | cons b bs => simp at h
  | cons a as ih =>
      intro es2 h hfold
      cases es2 with
      | nil => simp at h
      | cons b bs =>
          have h' : as.length = bs.length := by simpa using h
          have hfold' : ∀ x y : Int, (some x, some y) ∈ as.zip bs →
              BinaryExpr.Fold tag (some (.tvector .tint)) (.vint x) (.vint y)
                = .ok (.vint (intArith tag x y)) := fun x y hm =>
            hfold x y (by rw [List.zip_cons_cons]; exact List.mem_cons_of_mem _ hm)
          cases a with
          | none =>
              cases b <;>
                simp [foldVecVec, ih bs h' hfold', pure, Except.pure,
                  except_ok_bind]
          | some x =>
              cases b with
              | none =>
                  simp [foldVecVec, ih bs h' hfold', pure, Except.pure,
                    except_ok_bind]
              | some y =>
                  have hf := hfold x y (by simp)
                  simp [foldVecVec, hf, ih bs h' hfold', pure, Except.pure,
                    except_ok_bind]

/-- When some defined pair of cells has a zero divisor, the elementwise
loop under divide/modulo aborts with the domain's runtime error: the loop
folds pairs left to right and the first such pair raises. -/
theorem foldVecVec_zero_divisor (tag : BTag) (msg : String)
    (htag : tag = .divide ∧ msg = "division by zero" ∨
            tag = .mod ∧ msg = "modulo by zero") :
    ∀ es1 es2 : List (Option Int),
      (∃ x : Int, (some x, some (0 : Int)) ∈ es1.zip es2) →
      foldVecVec tag (some (.tvector .tint)) (es1.map (Option.map Val.vint))
          (es2.map (Option.map Val.vint))
        = .error (.rterror msg) := by
  intro es1
  induction es1 with
  | nil =>
      intro es2 hex
      obtain ⟨x, hx⟩ := hex
      simp at hx
  | cons a as ih =>
      intro es2 hex
      obtain ⟨x, hx⟩ := hex
      cases es2 with
      | nil => simp at hx
      | cons b bs =>
          rw [List.zip_cons_cons] at hx
          rcases List.mem_cons.mp hx with heq | htail
          · have ha : a = some x := (congrArg Prod.fst heq).symm
            have hb : b = some (0 : Int) := (congrArg Prod.snd heq).symm
            subst ha
            subst hb
            rcases htag with ⟨rfl, rfl⟩ | ⟨rfl, rfl⟩ <;>
              simp [foldVecVec, (fold_vint_div_mod_zero x).1,
                (fold_vint_div_mod_zero x).2, except_error_bind]
          · cases a with
            | none =>
                cases b <;>
                  simp [foldVecVec, ih bs ⟨x, htail⟩, pure, Except.pure,
                    except_ok_bind, except_error_bind]
            | some u =>
                cases b with
                | none =>
                    simp [foldVecVec, ih bs ⟨x, htail⟩, pure, Except.pure,
                      except_ok_bind, except_error_bind]
                | some w =>
                    by_cases hw : w = 0
                    · subst hw
                      rcases htag with ⟨rfl, rfl⟩ | ⟨rfl, rfl⟩ <;>
                        simp [foldVecVec, (fold_vint_div_mod_zero u).1,
                          (fold_vint_div_mod_zero u).2, except_error_bind]
                    · have hok : BinaryExpr.Fold tag (some (.tvector .tint))
                          (.vint u) (.vint w) = .ok (.vint (intArith tag u w)) := by
                        rcases htag with ⟨rfl, -⟩ | ⟨rfl, -⟩
                        exacts [(fold_vint_div_mod_nonzero u w hw).1,
                          (fold_vint_div_mod_nonzero u w hw).2]
                      simp [foldVecVec, hok, ih bs ⟨x, htail⟩, pure,
                        Except.pure, except_ok_bind, except_error_bind]

/-- The elementwise binary node on two constant integer vectors. -/
def elementwiseNode (tag : BTag) (es1 es2 : List (Option Int)) : Expr :=
  .mk false (some (.tvector .tint))
    (.ebinary tag (constIntVecExpr es1) (constIntVecExpr es2))

/-- The pointwise specification of the elementwise result: the scalar
fold where both cells are defined, an undefined cell elsewhere. -/
def zipFoldSpec (tag : BTag) (es1 es2 : List (Option Int)) :
    List (Option Val) :=
  List.zipWith (fun o1 o2 =>
    match o1, o2 with
    | some x, some y => some (Val.vint (intArith tag x y))
    | _, _ => none) es1 es2

/-- C4 counterexample: the claim says an undefined operand cell yields an
undefined result cell "rather than an error", for every elementwise
binary operation.  Dividing the equal-length vectors [·, 1] and [2, 0] —
position 0 undefined, position 1 a defined pair with zero divisor —
raises "division by zero" and produces no result vector at all, so no
position yields anything. -/
theorem C4_divide_by_zero_aborts_result :
    eval (elementwiseNode .divide [none, some 1] [some 2, some 0])
        { frame := [], events := [] } =
      (.error (.rterror "division by zero"), { frame := [], events := [] }) := rfl

/-- C4 amended: on two equal-length vectors, whenever the scalar fold
succeeds at every position where both cells are defined — always for
add/subtract/multiply, and for divide/modulo when every defined pair has
a nonzero divisor — the result holds an undefined cell at every position
where either operand's cell is undefined and the scalar fold everywhere
else; when some defined pair's divisor is zero, divide/modulo instead
raise "division by zero" / "modulo by zero" and no result vector is
produced. -/
theorem C4_amended_vector_elementwise (tag : BTag)
    (es1 es2 : List (Option Int)) (s : EvalState)
    (hlen : es1.length = es2.length) :
    (tag = .add ∨ tag = .sub ∨ tag = .times →
      eval (elementwiseNode tag es1 es2) s =
        (.ok (some (.vvec .tint (zipFoldSpec tag es1 es2))), s)) ∧
    (tag = .divide ∨ tag = .mod →
      (∀ x y : Int, (some x, some y) ∈ es1.zip es2 → y ≠ 0) →
      eval (elementwiseNode tag es1 es2) s =
        (.ok (some (.vvec .tint (zipFoldSpec tag es1 es2))), s)) ∧
    (tag = .divide → (∃ x : Int, (some x, some (0 : Int)) ∈ es1.zip es2) →
      eval (elementwiseNode tag es1 es2) s =
        (.error (.rterror "division by zero"), s)) ∧
    (tag = .mod → (∃ x : Int, (some x, some (0 : Int)) ∈ es1.zip es2) →
      eval (elementwiseNode tag es1 es2) s =
        (.error (.rterror "modulo by zero"), s)) := by
  refine ⟨?_, ?_, ?_, ?_⟩
  · intro htag
    have hfold := foldVecVec_lift tag es1 es2 hlen
      (fun x y _ => fold_vint_total tag htag x y)
    simp [eval, elementwiseNode, constIntVecExpr, zipFoldSpec, hlen, hfold]
  · intro htag hnz
    have hfold := foldVecVec_lift tag es1 es2 hlen (fun x y hm => by
      rcases htag with rfl | rfl
      exacts [(fold_vint_div_mod_nonzero x y (hnz x y hm)).1,
        (fold_vint_div_mod_nonzero x y (hnz x y hm)).2])
    simp [eval, elementwiseNode, constIntVecExpr, zipFoldSpec, hlen, hfold]
  · intro htag hex
    subst htag
    have hfold := foldVecVec_zero_divisor .divide "division by zero"
      (Or.inl ⟨rfl, rfl⟩) es1 es2 hex
    simp [eval, elementwiseNode, constIntVecExpr, hlen, hfold]
  · intro htag hex
    subst htag
    have hfold := foldVecVec_zero_divisor .mod "modulo by zero"
      (Or.inr ⟨rfl, rfl⟩) es1 es2 hex
    simp [eval, elementwiseNode, constIntVecExpr, hlen, hfold]

/-- Witness for the amended C4: the spec's add example [10, ·, 30] +
[1, 2, 3] yields [11, ·, 33]; divide with nonzero divisors [10, ·] / [2, 5]
yields [5, ·]; divide with a defined zero-divisor pair aborts with
"division by zero". -/
theorem C4_amended_vector_elementwise_witness :
    eval (elementwiseNode .add [some 10, none, some 30]
        [some 1, some 2, some 3]) { frame := [], events := [] } =
      (.ok (some (.vvec .tint [some (.vint 11), none, some (.vint 33)])),
        { frame := [], events := [] }) ∧
    eval (elementwiseNode .divide [some 10, none] [some 2, some 5])
        { frame := [], events := [] } =
      (.ok (some (.vvec .tint [some (.vint 5), none])),
        { frame := [], events := [] }) ∧
    eval (elementwiseNode .divide [none, some 1] [some 2, some 0])
        { frame := [], events := [] } =
      (.error (.rterror "division by zero"), { frame := [], events := [] }) := by
  refine ⟨?_, ?_, ?_⟩
  · have h := (C4_amended_vector_elementwise .add [some 10, none, some 30]
      [some 1, some 2, some 3] { frame := [], events := [] } rfl).1 (Or.inl rfl)
    simpa [zipFoldSpec, intArith] using h
  · have h := (C4_amended_vector_elementwise .divide [some 10, none]
      [some 2, some 5] { frame := [], events := [] } rfl).2.1 (Or.inl rfl)
      (by intro x y hm; simp at hm; omega)
    simpa [zipFoldSpec, intArith] using h
  · exact (C4_amended_vector_elementwise .divide [none, some 1]
      [some 2, some 0] { frame := [], events := [] } rfl).2.2.1 rfl
      ⟨1, by simp⟩

/-- A constant expression holding a boolean vector. -/
def constBoolVecExpr (bs : List (Option Bool)) : Expr :=
  .mk false (some (.tvector .tbool))
    (.econst (.vvec .tbool (bs.map (Option.map Val.vbool))))

/-- C5: a binary operation on two vector operands of different lengths —
arithmetic (`BinaryExpr::Eval`) or boolean (`BoolExpr::Eval`) — raises a
runtime error about vector operands of different sizes and produces no
result vector (the thrown failure leaves the expression without a
value). -/
theorem C5_vector_size_mismatch (tag : BTag) (isAnd : Bool)
    (es1 es2 : List (Option Int)) (bs1 bs2 : List (Option Bool))
    (s : EvalState) (hlen : es1.length ≠ es2.length)
    (hblen : bs1.length ≠ bs2.length) :
    eval (.mk false (some (.tvector .tint))
        (.ebinary tag (constIntVecExpr es1) (constIntVecExpr es2))) s =
      (.error (.rterror "vector operands are of different sizes"), s) ∧
    eval (.mk false (some (.tvector .tbool))
        (.ebool isAnd (constBoolVecExpr bs1) (constBoolVecExpr bs2))) s =
      (.error (.rterror "vector operands have different sizes"), s) := by
  constructor
  · simp [eval, constIntVecExpr, hlen]
  · simp [eval, constBoolVecExpr, Expr.isVector, Expr.type, hblen]

/-- Witness for C5, the spec's example: adding vectors of lengths 3 and 4
fails, as does `and` on boolean vectors of lengths 1 and 2. -/
theorem C5_vector_size_mismatch_witness :
    eval (.mk false (some (.tvector .tint))
        (.ebinary .add (constIntVecExpr [some 1, some 2, some 3])
          (constIntVecExpr [some 1, some 2, some 3, some 4])))
        { frame := [], events := [] } =
      (.error (.rterror "vector operands are of different sizes"),
        { frame := [], events := [] }) ∧
    eval (.mk false (some (.tvector .tbool))
        (.ebool true (constBoolVecExpr [some true])
          (constBoolVecExpr [some true, some false])))
        { frame := [], events := [] } =
      (.error (.rterror "vector operands have different sizes"),
        { frame := [], events := [] }) :=
  C5_vector_size_mismatch .add true [some 1, some 2, some 3]
    [some 1, some 2, some 3, some 4] [some true] [some true, some false]
    { frame := [], events := [] } (by decide) (by decide)

/-- A destination record type whose only field carries a `&default` but
not `&optional`. -/
def c6DestDefault : List CField := [CField.mk "a" .fint false (some (.rint 7))]

/-- C6 counterexample: the claim says a record coercion whose unmapped
destination field "is optional or carries a default" succeeds at
construction.  The constructor's check (Expr.cc line 3649) consults only
`ATTR_OPTIONAL`: coercing from an empty record onto a type whose field
`a` carries a default but is not optional is rejected at construction
with "non-optional field missing". -/
theorem C6_default_field_rejected :
    (mkRecordCoerce c6DestDefault []).errmsg
      = some "non-optional field \"a\" missing" := rfl

/-- When the missing-field check reports no error, every unmapped slot of
the coercion map belongs to an `&optional` destination field. -/
theorem findMissing_none (dest : List CField) :
    ∀ (m : List Int), findMissing dest m = none →
      ∀ (i : Nat) (f : CField), m[i]? = some (-1) →
        dest[i]? = some f → f.fopt = true := by
  induction dest with
  | nil =>
      intro m _ i f _ hf
      simp at hf
  | cons g gs ih =>
      intro m hm i f hmi hf
      cases m with
      | nil => simp at hmi
      | cons mi ms =>
          cases i with
          | zero =>
              have hg : g = f := by simpa using hf
              have hmi0 : mi = -1 := by simpa using hmi
              rw [← hg]
              by_cases hopt : g.fopt = true
              · exact hopt
              · rw [hmi0] at hm
                simp [findMissing, hopt] at hm
          | succ n =>
              have hrec : findMissing gs ms = none := by
                by_cases h1 : mi = -1
                · by_cases h2 : g.fopt = true
                  · simpa [findMissing, h1, h2] using hm
                  · simp [findMissing, h1, h2] at hm
                · simpa [findMissing, h1] using hm
              exact ih ms hrec n f (by simpa using hmi) (by simpa using hf)

/-- A successful step of the fold loop decomposes into a successful cell
and a successful tail. -/
theorem coerceFoldLoop_cons (sty : List CField) (vals : List (Option RVal))
    (f : CField) (fs : List CField) (mi : Int) (ms : List Int)
    (out : List (Option RVal))
    (h : coerceFoldLoop sty vals (f :: fs) (mi :: ms) = .ok out) :
    ∃ c r, coerceFoldCell sty vals f mi = .ok c ∧
      coerceFoldLoop sty vals fs ms = .ok r ∧ out = c :: r := by
  cases hc : coerceFoldCell sty vals f mi with
  | error e => simp [coerceFoldLoop, hc, except_error_bind] at h
  | ok c =>
      cases hr : coerceFoldLoop sty vals fs ms with
      | error e =>
          simp [coerceFoldLoop, hc, hr, except_ok_bind, except_error_bind] at h
      | ok r =>
          refine ⟨c, r, rfl, rfl, ?_⟩
          simp [coerceFoldLoop, hc, hr, except_ok_bind, pure, Except.pure] at h
          exact h.symm

/-- An unmapped field without a default folds to the absent cell. -/
theorem coerceFoldCell_unmapped_none (sty : List CField)
    (vals : List (Option RVal)) (f : CField) (hd : f.fdefault = none) :
    coerceFoldCell sty vals f (-1) = .ok none := by
  simp [coerceFoldCell, hd, pure, Except.pure]

/-- In a successfully folded record, every position whose map slot is
unmapped and whose destination field has no default holds the absent
cell. -/
theorem coerceFoldLoop_unmapped (sty : List CField)
    (vals : List (Option RVal)) :
    ∀ (destL : List CField) (mapL : List Int) (out : List (Option RVal))
      (i : Nat) (f : CField),
      coerceFoldLoop sty vals destL mapL = .ok out →
      mapL[i]? = some (-1) → destL[i]? = some f →
      f.fdefault = none → out[i]? = some none := by
  intro destL
  induction destL with
  | nil =>
      intro mapL out i f _ _ hf _
      simp at hf
  | cons g gs ih =>
      intro mapL out i f h hm hf hd
      cases mapL with
      | nil => simp [coerceFoldLoop, except_throw] at h
      | cons mi ms =>
          obtain ⟨c, r, hc, hr, rfl⟩ :=
            coerceFoldLoop_cons sty vals g gs mi ms out h
          cases i with
          | zero =>
              have hg : g = f := by simpa using hf
              have hmi0 : mi = -1 := by simpa using hm
              rw [hg, hmi0] at hc
              have h2 := (coerceFoldCell_unmapped_none sty vals f hd).symm.trans hc
              simp at h2
              simp [← h2]
          | succ n =>
              have := ih ms r n f hr (by simpa using hm) (by simpa using hf) hd
              simpa using this

/-- The destination type stored on a constructed coercion node. -/
theorem mkRecordCoerce_dest (dest src : List CField) :
    (mkRecordCoerce dest src).dest = dest := by
  unfold mkRecordCoerce
  rcases hbe : buildCoerceMap dest 0 src (List.replicate dest.length (-1)) with ⟨m, e⟩
  simp only [hbe]
  cases e <;> rfl

/-- C6 amended: a record coercion with an unmapped destination field
succeeds at construction only when that field is `&optional` — a default
alone does not satisfy the constructor's check, which reports
"non-optional field missing"; folding a succeeding coercion leaves an
unmapped field without a default absent in the result record. -/
theorem C6_amended_record_coercion (dest src : List CField) (i : Nat)
    (f : CField) (sty : List CField) (vals out : List (Option RVal)) :
    ((mkRecordCoerce dest src).errmsg = none →
      (mkRecordCoerce dest src).map[i]? = some (-1) →
      dest[i]? = some f → f.fopt = true) ∧
    ((mkRecordCoerce dest src).map[i]? = some (-1) →
      dest[i]? = some f → f.fopt = false →
      (mkRecordCoerce dest src).errmsg ≠ none) ∧
    (RecordCoerceExpr.Fold (mkRecordCoerce dest src) (.rrec sty vals)
        = .ok (.rrec dest out) →
      (mkRecordCoerce dest src).map[i]? = some (-1) →
      dest[i]? = some f → f.fdefault = none →
      out[i]? = some none) := by
  have hpartA : (mkRecordCoerce dest src).errmsg = none →
      (mkRecordCoerce dest src).map[i]? = some (-1) →
      dest[i]? = some f → f.fopt = true := by
    intro hnone hmap hf
    unfold mkRecordCoerce at hnone hmap
    rcases hbe : buildCoerceMap dest 0 src (List.replicate dest.length (-1))
      with ⟨m, e⟩
    simp only [hbe] at hnone hmap
    cases e with
    | some msg => simp at hnone
    | none =>
        simp at hnone hmap
        exact findMissing_none dest m hnone i f hmap hf
  refine ⟨hpartA, ?_, ?_⟩
  · intro hmap hf hopt hnone
    have := hpartA hnone hmap hf
    rw [hopt] at this
    exact Bool.false_ne_true this
  · intro hfold hmap hf hd
    have hdest := mkRecordCoerce_dest dest src
    unfold RecordCoerceExpr.Fold at hfold
    cases hl : coerceFoldLoop sty vals (mkRecordCoerce dest src).dest
        (mkRecordCoerce dest src).map with
    | error e => simp [hl, except_error_bind] at hfold
    | ok fields =>
        simp [hl, except_ok_bind, pure, Except.pure] at hfold
        rw [hdest] at hl
        obtain ⟨-, rfl⟩ := hfold
        exact coerceFoldLoop_unmapped sty vals dest
          (mkRecordCoerce dest src).map _ i f hl hmap hf hd

/-- A destination record type whose only field is `&optional` with no
default. -/
def c6DestOptional : List CField := [CField.mk "a" .fint true none]

/-- Witness for the amended C6: coercing the empty record onto a type
whose field is `&optional` succeeds at construction, leaves the field
unmapped, and folds to a record in which the field is absent. -/
theorem C6_amended_record_coercion_witness :
    (mkRecordCoerce c6DestOptional []).errmsg = none ∧
    CField.fopt (CField.mk "a" .fint true none) = true ∧
    RecordCoerceExpr.Fold (mkRecordCoerce c6DestOptional []) (.rrec [] [])
      = .ok (.rrec c6DestOptional [none]) ∧
    ([(none : Option RVal)][0]? = some none) := by
  refine ⟨rfl, ?_, rfl, ?_⟩
  · exact (C6_amended_record_coercion c6DestOptional [] 0
      (CField.mk "a" .fint true none) [] [] [none]).1 rfl rfl rfl
  · exact (C6_amended_record_coercion c6DestOptional [] 0
      (CField.mk "a" .fint true none) [] [] [none]).2.2 rfl rfl rfl rfl

/-- The scalar index operand `[0]` for the C7 counterexample. -/
def scalarIdxList : Expr := .mk false none (.econst (.vlist [.vint 0]))

/-- An index expression marked erroneous at construction whose base
operand carries a side effect (`++ctr`). -/
def errIndexNode : Expr := .mk true (some .tint) (.eindex incrCtr scalarIdxList)

/-- C7 counterexample: the claim says a node with the error flag set
evaluates to null "immediately".  `IndexExpr::Eval` (Expr.cc line 2593)
never consults the flag: it evaluates both operands — the increment side
effect in the base operand occurs, changing the frame — and only
`IndexExpr::Fold`'s own error check (line 2662) produces the null. -/
theorem C7_erroneous_index_side_effect :
    (eval errIndexNode ctrFrame).1 = .ok none ∧
    (eval errIndexNode ctrFrame).2 ≠ ctrFrame := by
  have he : eval errIndexNode ctrFrame
      = (.ok none, { frame := [("ctr", .vcount 1)], events := [] }) := rfl
  rw [he]
  refine ⟨rfl, ?_⟩
  intro hq
  simp [ctrFrame] at hq

/-- C7 amended: the error flag, once set at construction, is permanent —
it is immutable node state, so the per-kind behavior below holds on every
evaluation.  The kinds whose `Eval` checks the flag first — BinaryExpr,
BoolExpr, EventExpr — return null immediately, leaving the evaluation
context untouched.  IndexExpr never consults the flag before evaluating
both operands (their side effects occur): the scalar-index path then
returns null from `IndexExpr::Fold`'s error check, while a vector index
produces a non-null outcome.  ConstExpr, NameExpr and IncrExpr never
consult the flag at all and evaluate exactly as the same node with the
flag clear. -/
theorem C7_amended_error_flag (s : EvalState) (ty : Option TypeTag) :
    (∀ (tag : BTag) (e1 e2 : Expr),
      eval (.mk true ty (.ebinary tag e1 e2)) s = (.ok none, s)) ∧
    (∀ (isAnd : Bool) (e1 e2 : Expr),
      eval (.mk true ty (.ebool isAnd e1 e2)) s = (.ok none, s)) ∧
    (∀ (evName : String) (args : List Expr),
      eval (.mk true ty (.eevent evName args)) s = (.ok none, s)) ∧
    (∀ (v : Val),
      eval (.mk true ty (.econst v)) s = eval (.mk false ty (.econst v)) s) ∧
    (∀ (id : String),
      eval (.mk true ty (.ename id)) s = eval (.mk false ty (.ename id)) s) ∧
    (∀ (isIncr : Bool) (op : Expr),
      eval (.mk true ty (.eincr isIncr op)) s
        = eval (.mk false ty (.eincr isIncr op)) s) ∧
    (∀ (op1 op2 : Expr) (s1 s2 : EvalState) (v1 x : Val) (rest : List Val),
      x.isVector = false →
      eval op1 s = (.ok (some v1), s1) →
      eval op2 s1 = (.ok (some (.vlist (x :: rest))), s2) →
      eval (.mk true ty (.eindex op1 op2)) s = (.ok none, s2)) ∧
    (∀ (op1 op2 : Expr) (s1 s2 : EvalState) (y yb ity : TypeTag)
        (baseEs idxes : List (Option Val)) (rest : List Val),
      ty = some (.tvector y) →
      eval op1 s = (.ok (some (.vvec yb baseEs)), s1) →
      eval op2 s1 = (.ok (some (.vlist (.vvec ity idxes :: rest))), s2) →
      (eval (.mk true ty (.eindex op1 op2)) s).1 ≠ .ok none) := by
  refine ⟨fun tag e1 e2 => rfl, fun isAnd e1 e2 => rfl, fun evName args => rfl,
    fun v => rfl, fun id => rfl, fun isIncr op => rfl, ?_, ?_⟩
  · intro op1 op2 s1 s2 v1 x rest hx hop1 hop2
    cases x <;>
      simp_all [eval, IndexExpr.Fold, Val.isVector, pure, Except.pure]
  · intro op1 op2 s1 s2 y yb ity baseEs idxes rest hty hop1 hop2
    subst hty
    simp only [eval, hop1, hop2]
    by_cases hb : ity = .tbool
    · by_cases hsz : baseEs.length ≠ idxes.length
      · simp [hb, hsz]
      · cases hbs : boolSelect baseEs idxes 0 [] <;> simp [hb, hsz, hbs]
    · cases hig : intGather baseEs idxes <;> simp [hb, hig]

/-- Witness for the amended C7: an erroneous BinaryExpr returns null with
the context untouched; the erroneous scalar-index node returns null with
the base operand's increment having run; an erroneous vector-indexed node
does not return null. -/
theorem C7_amended_error_flag_witness :
    eval (.mk true (some .tint) (.ebinary .add falseConst falseConst))
        ctrFrame = (.ok none, ctrFrame) ∧
    eval errIndexNode ctrFrame
      = (.ok none, { frame := [("ctr", .vcount 1)], events := [] }) ∧
    (eval (.mk true (some (.tvector .tint)) (.eindex c9Base c9BoolIdx))
        ctrFrame).1 ≠ .ok none := by
  have h := C7_amended_error_flag ctrFrame (some .tint)
  have hv := C7_amended_error_flag ctrFrame (some (.tvector .tint))
  refine ⟨h.1 .add falseConst falseConst, ?_, ?_⟩
  · exact h.2.2.2.2.2.2.1 incrCtr scalarIdxList
      { frame := [("ctr", .vcount 1)], events := [] }
      { frame := [("ctr", .vcount 1)], events := [] }
      (.vcount 1) (.vint 0) [] rfl rfl rfl
  · exact hv.2.2.2.2.2.2.2 c9Base c9BoolIdx ctrFrame ctrFrame .tint .tint
      .tbool [some (.vint 10), some (.vint 20)]
      [some (.vbool true), some (.vbool true)] [] rfl rfl rfl

end Zeek
